import Mathlib

/-!
Shallow embedding of the file-queue and batch-conversion logic of the two
browser tools in this repository: the PDF-merge tool (`PdfMerge.js`) and the
image-to-PDF tool (`JpgToPdf.js`).

External libraries are modelled at their observable boundary: the result of
reading a file's bytes and parsing them as a PDF (`PDFDocument.load`) is an
`Option (List P)` of pages carried by the file, and the result of decoding an
image (`FileReader` + `Image`) is an `Option (Nat × Nat)` of pixel dimensions;
`none` stands for a read or decode failure, which the source's try/catch turns
into the generic failed-run condition.  Page sizes in PDF points are rationals
(`pxToPt` multiplies by the fixed 0.75 factor).  Queue arrays are lists of
`Option` slots because a JavaScript array can come to hold `undefined` after
an unguarded `splice`; a populated slot is `some item`.
-/

namespace Portfolio

/-- The error/status messages a tool can surface (translation keys in the
source, with `noMsg` for the cleared state `""`). -/
inductive ErrMsg where
  | noMsg
  | pdfInvalidFileType
  | pdfMaxFilesReached
  | pdfSomeFilesIgnored
  | pdfNeedAtLeastTwo
  | pdfMergeFailed
  | jpgInvalidFileType
  | jpgNoImagesError
  | jpgConvertFailed
deriving DecidableEq, Repr

/-- `const MAX_FILES = 15` in `PdfMerge.js`. -/
def MAX_FILES : Nat := 15

/-- A file selected into the PDF-merge tool.  `type` is the declared MIME
type and `parsed` is what `file.arrayBuffer()` followed by
`PDFDocument.load` yields: `some` the file's page list (pages of abstract
type `P`, in their internal order), or `none` when reading or parsing fails. -/
structure PdfFile (P : Type) where
  name : String
  type : String
  size : Nat
  parsed : Option (List P)
deriving DecidableEq, Repr

/-- A queue entry of the PDF-merge tool (`{ id, file, sizeLabel }` in the
source; the derived display label is presentation-only and omitted, and the
random token in the generated id is abstracted away). -/
structure PdfItem (P : Type) where
  id : String
  file : PdfFile P
deriving DecidableEq, Repr

/-- The state of one PdfMerge tool instance: the `items` array (slots, since
a stale drop can splice `undefined` in), the merged-output handle
(`mergedPdfUrl`, holding the produced page list when live), the inline
message, the drag source index (`dragIndexRef`), the `{current, total}`
progress pair, and the `isMerging` flag. -/
structure PdfMergeState (P : Type) where
  items : List (Option (PdfItem P))
  mergedPdf : Option (List P)
  errorMsg : ErrMsg
  dragIndex : Option Nat
  progress : Nat × Nat
  isMerging : Bool
deriving DecidableEq, Repr

/-- `acceptTypes` of `PdfMerge.js`. -/
def pdfAcceptTypes : List String := ["application/pdf"]

/-- The admission filter of `PdfMerge.addFiles`: declared MIME type on the
allow-list, or filename ending (case-insensitively) in `.pdf`. -/
def isPdfFile {P : Type} (f : PdfFile P) : Bool :=
  pdfAcceptTypes.contains f.type || f.name.toLower.endsWith ".pdf"

/-- Build the queue entry for an admitted file. -/
def mkPdfItem {P : Type} (f : PdfFile P) : PdfItem P :=
  { id := f.name, file := f }

/-- `PdfMerge.addFiles(fileList)`: clears the message and the output handle,
filters the incoming batch, reports an invalid-type condition on a partial
filter, enforces the 15-item cap (zero admitted and cap-reached when full,
truncation and an ignored-files condition on overflow), and appends the
admitted files in input order. -/
def pdfAddFiles {P : Type} (s : PdfMergeState P) (fileList : List (PdfFile P)) :
    PdfMergeState P :=
  let s0 := { s with errorMsg := ErrMsg.noMsg, mergedPdf := none }
  let incoming := fileList
  if incoming.length = 0 then s0
  else
    let valid := incoming.filter isPdfFile
    let s1 := if valid.length ≠ incoming.length then
        { s0 with errorMsg := ErrMsg.pdfInvalidFileType } else s0
    let availableSlots := MAX_FILES - s1.items.length
    if availableSlots ≤ 0 then { s1 with errorMsg := ErrMsg.pdfMaxFilesReached }
    else
      let toAdd := valid.take availableSlots
      let s2 := if availableSlots < valid.length then
          { s1 with errorMsg := ErrMsg.pdfSomeFilesIgnored } else s1
      { s2 with items := s2.items ++ toAdd.map (fun f => some (mkPdfItem f)) }

/-- `PdfMerge.removeItem(id)`: clears the output handle and filters the item
out by id.  (Reading `x.id` on an `undefined` slot would throw in the source;
slots are populated whenever this runs, and the model keeps a `none` slot.) -/
def pdfRemoveItem {P : Type} (s : PdfMergeState P) (id : String) : PdfMergeState P :=
  { s with mergedPdf := none,
           items := s.items.filter (fun slot =>
             match slot with
             | none => true
             | some it => it.id != id) }

/-- `PdfMerge.clearAll()`: clears the output handle, the message and the
whole queue. -/
def pdfClearAll {P : Type} (s : PdfMergeState P) : PdfMergeState P :=
  { s with mergedPdf := none, errorMsg := ErrMsg.noMsg, items := [] }

/-- `PdfMerge.onDragStart(index)`: records the drag source index. -/
def pdfOnDragStart {P : Type} (s : PdfMergeState P) (index : Nat) : PdfMergeState P :=
  { s with dragIndex := some index }

/-- The array update performed by both tools' `onDrop` handlers:
`next.splice(dragIndex, 1)` removes at most one element (nothing when the
index is past the end, in which case the destructured `moved` is
`undefined`), and `next.splice(dropIndex, 0, moved)` inserts that value,
with the start position clamped to the array length. -/
def jsMoveSlots {α : Type} (l : List (Option α)) (d t : Nat) : List (Option α) :=
  let afterRemove := l.eraseIdx d
  afterRemove.insertIdx (min t afterRemove.length) (l.getD d none)

/-- `PdfMerge.onDrop(dropIndex)`: consumes the recorded drag index; no-op
when none is recorded or it equals the drop index; otherwise clears the
output handle and applies the splice-based move to the items array. -/
def pdfOnDrop {P : Type} (s : PdfMergeState P) (dropIndex : Nat) : PdfMergeState P :=
  match s.dragIndex with
  | none => { s with dragIndex := none }
  | some d =>
    if d = dropIndex then { s with dragIndex := none }
    else
      { s with dragIndex := none, mergedPdf := none,
               items := jsMoveSlots s.items d dropIndex }

/-- What `await items[i].file.arrayBuffer()` + `PDFDocument.load(bytes)`
yields for one queue slot: the file's page list, or `none` on a read/parse
failure (an `undefined` slot also throws, which the try/catch likewise turns
into the failed run). -/
def slotLoad {P : Type} (slot : Option (PdfItem P)) : Option (List P) :=
  slot.bind fun it => it.file.parsed

/-- Loading every queued file in order: `some` the list of their page lists
(queue order preserved) when all parse, `none` as soon as one fails. -/
def loadAll {P : Type} : List (Option (PdfItem P)) → Option (List (List P))
  | [] => some []
  | slot :: rest =>
    match slotLoad slot with
    | none => none
    | some pages => (loadAll rest).map (fun ds => pages :: ds)

/-- The `for` loop of `PdfMerge.mergePdfs`: walks the queue in order, copying
each parsed file's pages onto the accumulated output and emitting a progress
update `i + 1` after each completed item.  Returns the final page list (or
`none` when some item fails, aborting the loop) together with the sequence
of `current` values passed to `setProgress` inside the loop. -/
def mergeLoopAux {P : Type} (slots : List (Option (PdfItem P))) (done : Nat)
    (acc : List P) : Option (List P) × List Nat :=
  match slots with
  | [] => (some acc, [])
  | slot :: rest =>
    match slotLoad slot with
    | none => (none, [])
    | some pages =>
      let r := mergeLoopAux rest (done + 1) (acc ++ pages)
      (r.1, (done + 1) :: r.2)

/-- The merged page list produced by the loop (when no item fails). -/
def mergeLoop {P : Type} (slots : List (Option (PdfItem P))) : Option (List P) :=
  (mergeLoopAux slots 0 []).1

/-- The observable sequence of progress-counter updates emitted during the
loop, one after each completed item. -/
def mergeTrace {P : Type} (slots : List (Option (PdfItem P))) : List Nat :=
  (mergeLoopAux slots 0 []).2

/-- `PdfMerge.mergePdfs()`: clears the message and output handle, rejects a
queue of fewer than two items, then runs the merge loop; on success publishes
the merged pages as the output artifact, on any failure surfaces the single
generic merge-failed condition and publishes nothing.  The queue itself is
never touched.  The final progress pair is the last value set (the initial
`{0, n}` when the first item already fails). -/
def mergePdfs {P : Type} (s : PdfMergeState P) : PdfMergeState P :=
  let s0 := { s with errorMsg := ErrMsg.noMsg, mergedPdf := none }
  if s0.items.length < 2 then { s0 with errorMsg := ErrMsg.pdfNeedAtLeastTwo }
  else
    let n := s0.items.length
    let s1 := { s0 with progress := ((mergeTrace s0.items).getLastD 0, n),
                        isMerging := false }
    match mergeLoop s0.items with
    | some pages => { s1 with mergedPdf := some pages }
    | none => { s1 with errorMsg := ErrMsg.pdfMergeFailed }

/-- A file selected into the image-to-PDF tool.  `decoded` is what
`readFileAsDataUrl` followed by `loadImage` yields: `some` the decoded
image's `(naturalWidth, naturalHeight)` pixel dimensions, or `none` when
reading or decoding fails. -/
structure ImgFile where
  name : String
  type : String
  decoded : Option (Nat × Nat)
deriving DecidableEq, Repr

/-- A queue entry of the image tool (`{ id, file, previewUrl }` in the
source; the preview object-URL handle is lifecycle plumbing and omitted,
and the random token in the generated id is abstracted away). -/
structure ImgItem where
  id : String
  file : ImgFile
deriving DecidableEq, Repr

/-- One page of the document built by the image tool: the page size passed
to the compositor (in points), the requested orientation string, and the
placement rectangle and format of the image drawn onto it. -/
structure PdfPage where
  w : ℚ
  h : ℚ
  orientation : String
  imgX : ℚ
  imgY : ℚ
  imgW : ℚ
  imgH : ℚ
  format : String
deriving DecidableEq, Repr

/-- The state of one JpgToPdf tool instance. -/
structure JpgState where
  items : List (Option ImgItem)
  pdfUrl : Option (List PdfPage)
  errorMsg : ErrMsg
  dragIndex : Option Nat
  isConverting : Bool
deriving DecidableEq, Repr

/-- `acceptTypes` of `JpgToPdf.js`. -/
def jpgAcceptTypes : List String := ["image/jpeg", "image/jpg", "image/png"]

/-- The admission filter of `JpgToPdf.addFiles`: declared MIME type on the
allow-list (no filename fallback in this tool). -/
def isImgFile (f : ImgFile) : Bool :=
  jpgAcceptTypes.contains f.type

/-- Build the queue entry for an admitted image. -/
def mkImgItem (f : ImgFile) : ImgItem :=
  { id := f.name, file := f }

/-- `JpgToPdf.addFiles(fileList)`: clears the message and the output handle;
when the batch is nonempty and no file passes validation, rejects the whole
batch with the invalid-type condition; otherwise appends every valid file in
input order (no capacity cap in this tool). -/
def jpgAddFiles (s : JpgState) (fileList : List ImgFile) : JpgState :=
  let s0 := { s with errorMsg := ErrMsg.noMsg, pdfUrl := none }
  let incoming := fileList
  let valid := incoming.filter isImgFile
  if 0 < incoming.length ∧ valid.length = 0 then
    { s0 with errorMsg := ErrMsg.jpgInvalidFileType }
  else
    { s0 with items := s0.items ++ valid.map (fun f => some (mkImgItem f)) }

/-- `JpgToPdf.onDrop(dropIndex)`: same splice-based reorder as the merge
tool, clearing the image tool's output handle. -/
def jpgOnDrop (s : JpgState) (dropIndex : Nat) : JpgState :=
  match s.dragIndex with
  | none => { s with dragIndex := none }
  | some d =>
    if d = dropIndex then { s with dragIndex := none }
    else
      { s with dragIndex := none, pdfUrl := none,
               items := jsMoveSlots s.items d dropIndex }

/-- `pxToPt`: pixels to PDF points at the fixed 0.75 scale factor. -/
def pxToPt (px : ℚ) : ℚ := px * (3 / 4)

/-- The per-image body of the `convertToPdf` loop: each converted dimension
is clamped below at 1 (`Math.max(1, pxToPt ...)`), orientation is `"l"`
exactly when the clamped width is at least the clamped height, the page is
created with exactly the clamped size, and the image is placed at the origin
with the page's own width and height, as JPEG when the declared type is a
JPEG type and as PNG otherwise. -/
def convertPage (f : ImgFile) (w h : Nat) : PdfPage :=
  let wPt := max 1 (pxToPt w)
  let hPt := max 1 (pxToPt h)
  let orientation := if wPt ≥ hPt then "l" else "p"
  let isJpeg := f.type = "image/jpeg" ∨ f.type = "image/jpg"
  { w := wPt, h := hPt, orientation := orientation,
    imgX := 0, imgY := 0, imgW := wPt, imgH := hPt,
    format := if isJpeg then "JPEG" else "PNG" }

/-- What decoding one queue slot of the image tool yields: the pixel
dimensions, or `none` on a read/decode failure (an `undefined` slot also
throws, which the try/catch likewise turns into the failed run). -/
def slotDecode (slot : Option ImgItem) : Option (Nat × Nat) :=
  slot.bind fun it => it.file.decoded

/-- The `for` loop of `JpgToPdf.convertToPdf`: walks the queue in order,
appending one page per decoded image (the first via the `jsPDF` constructor,
the rest via `addPage`, both recorded the same way); aborts with `none` as
soon as one item fails to decode. -/
def convertLoop : List (Option ImgItem) → Option (List PdfPage)
  | [] => some []
  | slot :: rest =>
    match slot with
    | none => none
    | some it =>
      match it.file.decoded with
      | none => none
      | some (w, h) => (convertLoop rest).map (fun ps => convertPage it.file w h :: ps)

/-- `JpgToPdf.convertToPdf()`: clears the message and output handle, rejects
an empty queue, then runs the conversion loop; on success publishes the page
list as the output artifact, on any failure surfaces the single generic
convert-failed condition and publishes nothing.  The queue itself is never
touched. -/
def convertToPdf (s : JpgState) : JpgState :=
  let s0 := { s with errorMsg := ErrMsg.noMsg, pdfUrl := none }
  if s0.items.length = 0 then { s0 with errorMsg := ErrMsg.jpgNoImagesError }
  else
    let s1 := { s0 with isConverting := false }
    match convertLoop s0.items with
    | some pages => { s1 with pdfUrl := some pages }
    | none => { s1 with errorMsg := ErrMsg.jpgConvertFailed }

/-- Modelled from the spec's words for the refinement check of claim C8
("compute a page size from those dimensions — a fixed scale factor converts
pixel units to the output's physical page-size units"; "appends a page of
exactly that converted size"): the page size obtained by applying only the
fixed scale factor to each pixel dimension, with no clamping. -/
def specC8PageSize (w h : Nat) : ℚ × ℚ :=
  (pxToPt w, pxToPt h)

/-! ### Helper lemmas about the merge and conversion loops -/

theorem loadAll_eq_none_iff {P : Type} (slots : List (Option (PdfItem P))) :
    loadAll slots = none ↔ ∃ slot ∈ slots, slotLoad slot = none := by
  induction slots with
  | nil => simp [loadAll]
  | cons slot rest ih =>
    cases h : slotLoad slot with
    | none => simp [loadAll, h]
    | some pages => simp [loadAll, h, Option.map_eq_none', ih]

theorem mergeLoopAux_fst {P : Type} (slots : List (Option (PdfItem P))) (done : Nat)
    (acc : List P) :
    (mergeLoopAux slots done acc).1 = (loadAll slots).map (fun ds => acc ++ ds.flatten) := by
  induction slots generalizing done acc with
  | nil => simp [mergeLoopAux, loadAll]
  | cons slot rest ih =>
    cases h : slotLoad slot with
    | none => simp [mergeLoopAux, loadAll, h]
    | some pages =>
      simp only [mergeLoopAux, loadAll, h]
      rw [ih]
      cases hr : loadAll rest with
      | none => simp
      | some ds => simp

theorem mergeLoopAux_snd {P : Type} (slots : List (Option (PdfItem P))) (done : Nat)
    (acc : List P) (h : loadAll slots ≠ none) :
    (mergeLoopAux slots done acc).2 = List.range' (done + 1) slots.length := by
  induction slots generalizing done acc with
  | nil => simp [mergeLoopAux]
  | cons slot rest ih =>
    cases hs : slotLoad slot with
    | none => exact absurd (by simp [loadAll, hs]) h
    | some pages =>
      have hrest : loadAll rest ≠ none := by
        intro hn
        exact h (by simp [loadAll, hs, hn])
      simp [mergeLoopAux, hs, ih _ _ hrest, List.range'_succ]

theorem convertLoop_eq_none_iff (slots : List (Option ImgItem)) :
    convertLoop slots = none ↔ ∃ slot ∈ slots, slotDecode slot = none := by
  induction slots with
  | nil => simp [convertLoop]
  | cons slot rest ih =>
    cases slot with
    | none => simp [convertLoop, slotDecode]
    | some it =>
      cases h : it.file.decoded with
      | none => simp [convertLoop, slotDecode, h]
      | some wh =>
        obtain ⟨w, hh⟩ := wh
        simp [convertLoop, slotDecode, h, Option.map_eq_none', ih]

/-! ### Claim theorems -/

/-- C1: for every queue of parseable PDF source documents with at least two
items, a successful merge run publishes one output whose page sequence is the
concatenation, in queue order, of the input documents' pages in their
internal order, and whose page count is the sum of the input page counts. -/
theorem mergePdfs_concats_pages {P : Type} (s : PdfMergeState P) (docs : List (List P))
    (h2 : 2 ≤ s.items.length) (hload : loadAll s.items = some docs) :
    (mergePdfs s).mergedPdf = some docs.flatten ∧
      docs.flatten.length = (docs.map List.length).sum := by
  have hm : mergeLoop s.items = some docs.flatten := by
    simp [mergeLoop, mergeLoopAux_fst, hload]
  have hlt : ¬ s.items.length < 2 := Nat.not_lt.mpr h2
  exact ⟨by simp [mergePdfs, hm, hlt], List.length_flatten docs⟩

/-- Concrete inputs for the C1 witness: the spec's scenario, a 3-page
document followed by a 1-page document. -/
def w1State : PdfMergeState Nat :=
  { items :=
      [some (mkPdfItem { name := "A.pdf", type := "application/pdf", size := 10,
                         parsed := some [1, 2, 3] }),
       some (mkPdfItem { name := "B.pdf", type := "application/pdf", size := 4,
                         parsed := some [4] })],
    mergedPdf := none, errorMsg := ErrMsg.noMsg, dragIndex := none,
    progress := (0, 0), isMerging := false }

/-- Witness for C1: merging A.pdf (pages 1,2,3) and B.pdf (page 4) yields the
four pages in order A1, A2, A3, B1. -/
theorem mergePdfs_concats_pages_witness :
    (mergePdfs w1State).mergedPdf = some [1, 2, 3, 4] := by
  have h := mergePdfs_concats_pages w1State [[1, 2, 3], [4]] (by decide) (by decide)
  exact h.1.trans (by decide)

/-- C7: within one merge run over a queue of `n` parseable items, the
progress counter updates emitted in the loop are exactly `1, 2, …, n`: one
per completed item, in strictly increasing order, not batched at the end. -/
theorem mergeTrace_strictly_increasing {P : Type} (s : PdfMergeState P)
    (docs : List (List P)) (h2 : 2 ≤ s.items.length)
    (hload : loadAll s.items = some docs) :
    mergeTrace s.items = List.range' 1 s.items.length ∧
      (mergeTrace s.items).length = s.items.length := by
  have h := mergeLoopAux_snd s.items 0 [] (by simp [hload])
  refine ⟨by simpa [mergeTrace] using h, ?_⟩
  rw [mergeTrace, h]
  exact List.length_range' (0 + 1) 1 s.items.length

/-- Witness for C7: with two parseable queued documents the observable
progress sequence is `[1, 2]`. -/
theorem mergeTrace_strictly_increasing_witness :
    mergeTrace w1State.items = [1, 2] := by
  have h := mergeTrace_strictly_increasing w1State [[1, 2, 3], [4]] (by decide) (by decide)
  exact h.1.trans (by decide)

/-- C2: a batch run (merge or image conversion) in which some item fails to
read or decode aborts with no published output artifact, the single generic
failure message for that tool, and the queue items untouched. -/
theorem failedRun_aborts_cleanly {P : Type} (sp : PdfMergeState P) (si : JpgState) :
    (2 ≤ sp.items.length → (∃ slot ∈ sp.items, slotLoad slot = none) →
      (mergePdfs sp).mergedPdf = none ∧
        (mergePdfs sp).errorMsg = ErrMsg.pdfMergeFailed ∧
        (mergePdfs sp).items = sp.items) ∧
    (si.items ≠ [] → (∃ slot ∈ si.items, slotDecode slot = none) →
      (convertToPdf si).pdfUrl = none ∧
        (convertToPdf si).errorMsg = ErrMsg.jpgConvertFailed ∧
        (convertToPdf si).items = si.items) := by
  constructor
  · intro h2 hex
    have hload : loadAll sp.items = none := (loadAll_eq_none_iff sp.items).mpr hex
    have hm : mergeLoop sp.items = none := by
      simp [mergeLoop, mergeLoopAux_fst, hload]
    have hlt : ¬ sp.items.length < 2 := Nat.not_lt.mpr h2
    refine ⟨?_, ?_, ?_⟩ <;> simp [mergePdfs, hm, hlt]
  · intro hne hex
    have hc : convertLoop si.items = none := (convertLoop_eq_none_iff si.items).mpr hex
    have hlen : ¬ si.items.length = 0 := fun h => hne (List.length_eq_zero.mp h)
    refine ⟨?_, ?_, ?_⟩ <;> simp [convertToPdf, hc, hlen]

/-- Concrete inputs for the C2 witness: a merge queue whose second of three
documents is unreadable, and an image queue whose second image fails to
decode. -/
def w2State : PdfMergeState Nat :=
  { items :=
      [some (mkPdfItem { name := "ok1.pdf", type := "application/pdf", size := 1,
                         parsed := some [1] }),
       some (mkPdfItem { name := "bad.pdf", type := "application/pdf", size := 1,
                         parsed := none }),
       some (mkPdfItem { name := "ok2.pdf", type := "application/pdf", size := 1,
                         parsed := some [2] })],
    mergedPdf := none, errorMsg := ErrMsg.noMsg, dragIndex := none,
    progress := (0, 0), isMerging := false }

/-- Concrete image-tool state for the C2 witness. -/
def w2ImgState : JpgState :=
  { items :=
      [some (mkImgItem { name := "ok.png", type := "image/png", decoded := some (2, 2) }),
       some (mkImgItem { name := "bad.png", type := "image/png", decoded := none })],
    pdfUrl := none, errorMsg := ErrMsg.noMsg, dragIndex := none, isConverting := false }

/-- Witness for C2: both failing runs publish nothing and leave their queues
(three and two items respectively) untouched, surfacing the generic message. -/
theorem failedRun_aborts_cleanly_witness :
    ((mergePdfs w2State).mergedPdf = none ∧ (mergePdfs w2State).items = w2State.items) ∧
      ((convertToPdf w2ImgState).pdfUrl = none ∧
        (convertToPdf w2ImgState).items = w2ImgState.items) := by
  have h := failedRun_aborts_cleanly w2State w2ImgState
  have h1 := h.1 (by decide) (by decide)
  have h2 := h.2 (by decide) (by decide)
  exact ⟨⟨h1.1, h1.2.2⟩, ⟨h2.1, h2.2.2⟩⟩

/-- C3: every queue mutation of the merge tool that changes membership or
order clears the previously produced output handle — admission, removal and
clear-all clear it unconditionally, and a reordering drop clears it whenever
it changes the items list. -/
theorem queueMutations_clear_output {P : Type} (s : PdfMergeState P)
    (files : List (PdfFile P)) (id : String) (t : Nat) :
    (pdfAddFiles s files).mergedPdf = none ∧
    (pdfRemoveItem s id).mergedPdf = none ∧
    (pdfClearAll s).mergedPdf = none ∧
    ((pdfOnDrop s t).items ≠ s.items → (pdfOnDrop s t).mergedPdf = none) := by
  refine ⟨?_, rfl, rfl, ?_⟩
  · simp only [pdfAddFiles, apply_ite PdfMergeState.mergedPdf, ite_self]
  · intro hne
    cases hd : s.dragIndex with
    | none => exact absurd (by simp [pdfOnDrop, hd]) hne
    | some d =>
      by_cases hdt : d = t
      · exact absurd (by simp [pdfOnDrop, hd, hdt]) hne
      · simp [pdfOnDrop, hd, hdt]

/-- Concrete inputs for the C3 witness: a queue of two items with a live
output handle and a recorded drag from index 0. -/
def w3State : PdfMergeState Nat :=
  { items :=
      [some (mkPdfItem { name := "x.pdf", type := "application/pdf", size := 1,
                         parsed := some [1] }),
       some (mkPdfItem { name := "y.pdf", type := "application/pdf", size := 1,
                         parsed := some [2] })],
    mergedPdf := some [1, 2], errorMsg := ErrMsg.noMsg, dragIndex := some 0,
    progress := (0, 0), isMerging := false }

/-- Witness for C3: a drop that reorders the two items clears the live
output handle. -/
theorem queueMutations_clear_output_witness :
    (pdfOnDrop w3State 1).mergedPdf = none :=
  (queueMutations_clear_output w3State [] "x.pdf" 1).2.2.2 (by decide)

/-- Concrete state for the C4 failing input: two queued items but a recorded
drag index of 2, stale because the dragged item was removed before the drop
completed. -/
def c4State : PdfMergeState Nat :=
  { items :=
      [some (mkPdfItem { name := "a.pdf", type := "application/pdf", size := 1,
                         parsed := some [1] }),
       some (mkPdfItem { name := "b.pdf", type := "application/pdf", size := 1,
                         parsed := some [2] })],
    mergedPdf := none, errorMsg := ErrMsg.noMsg, dragIndex := some 2,
    progress := (0, 0), isMerging := false }

/-- C4 (code evaluated at the failing input): a drop with a stale
out-of-range drag index is not a no-op — `splice(2, 1)` on the two-element
array removes nothing and destructures `undefined`, which `splice(0, 0,
moved)` then inserts, so the queue grows to three slots with an `undefined`
hole at the drop position instead of staying unchanged. -/
theorem staleDrop_corrupts_queue :
    (pdfOnDrop c4State 0).items
        = [none, c4State.items.getD 0 none, c4State.items.getD 1 none] ∧
      (pdfOnDrop c4State 0).items ≠ c4State.items := by
  constructor <;> decide

/-- C5: capacity behaviour of `PdfMerge.addFiles` for a nonempty all-valid
batch — at the 15-item cap nothing is admitted and the cap-reached condition
is reported; when the batch exceeds the free slots exactly the first
`15 − n` files are admitted, filling the queue to 15, and the ignored-files
condition is reported; otherwise the whole batch is appended in input
order. -/
theorem addFiles_capacity {P : Type} (s : PdfMergeState P) (files : List (PdfFile P))
    (hvalid : ∀ f ∈ files, isPdfFile f) (hne : files ≠ []) :
    (s.items.length = MAX_FILES →
      (pdfAddFiles s files).items = s.items ∧
        (pdfAddFiles s files).errorMsg = ErrMsg.pdfMaxFilesReached) ∧
    (s.items.length < MAX_FILES → MAX_FILES - s.items.length < files.length →
      (pdfAddFiles s files).items
          = s.items ++ (files.take (MAX_FILES - s.items.length)).map
              (fun f => some (mkPdfItem f)) ∧
        (pdfAddFiles s files).items.length = MAX_FILES ∧
        (pdfAddFiles s files).errorMsg = ErrMsg.pdfSomeFilesIgnored) ∧
    (s.items.length + files.length ≤ MAX_FILES →
      (pdfAddFiles s files).items
          = s.items ++ files.map (fun f => some (mkPdfItem f))) := by
  have hfilter : files.filter isPdfFile = files := List.filter_eq_self.mpr hvalid
  have hlen : ¬ files.length = 0 := fun h => hne (List.length_eq_zero.mp h)
  refine ⟨?_, ?_, ?_⟩
  · intro hn
    constructor <;> simp [pdfAddFiles, hfilter, hlen, hn]
  · intro hn hover
    have hslots : ¬ MAX_FILES - s.items.length ≤ 0 := by omega
    constructor
    · simp [pdfAddFiles, hfilter, hlen, hslots, hover]
    constructor
    · have hlt : (files.take (MAX_FILES - s.items.length)).length
          = MAX_FILES - s.items.length := by
        rw [List.length_take]
        omega
      simp only [pdfAddFiles, hfilter, hlen, hslots, hover, if_neg, if_pos,
        if_false, if_true, ite_false, ite_true]
      simp [hfilter, hlen, hslots, hover, hlt]
      omega
    · simp [pdfAddFiles, hfilter, hlen, hslots, hover]
  · intro hfit
    have hslots : ¬ MAX_FILES - s.items.length ≤ 0 := by omega
    have hover : ¬ MAX_FILES - s.items.length < files.length := by omega
    have htake : files.take (MAX_FILES - s.items.length) = files :=
      List.take_of_length_le (by omega)
    simp [pdfAddFiles, hfilter, hlen, hslots, hover, htake]

/-- Concrete state for the C5 witness: a queue of 14 one-page documents. -/
def w5State : PdfMergeState Nat :=
  { items := (List.range 14).map (fun i =>
      some (mkPdfItem { name := toString i ++ ".pdf", type := "application/pdf",
                        size := 1, parsed := some [i] })),
    mergedPdf := none, errorMsg := ErrMsg.noMsg, dragIndex := none,
    progress := (0, 0), isMerging := false }

/-- Two valid incoming files for the C5 witness. -/
def w5Files : List (PdfFile Nat) :=
  [{ name := "new1.pdf", type := "application/pdf", size := 1, parsed := some [100] },
   { name := "new2.pdf", type := "application/pdf", size := 1, parsed := some [101] }]

/-- Witness for C5: admitting two valid files into a 14-item queue admits
exactly the first one, fills the queue to 15, and reports the ignored-files
condition. -/
theorem addFiles_capacity_witness :
    (pdfAddFiles w5State w5Files).items.length = MAX_FILES ∧
      (pdfAddFiles w5State w5Files).errorMsg = ErrMsg.pdfSomeFilesIgnored := by
  have h := (addFiles_capacity w5State w5Files (by decide) (by decide)).2.1
      (by decide) (by decide)
  exact ⟨h.2.1, h.2.2⟩

/-- C6: a completed drag with in-range source and target indices is a no-op
when no drag was recorded or the indices coincide, and otherwise relocates
the dragged item to the target position with the intervening items shifted
(remove at the source index, insert at the target index). -/
theorem drop_relocates_item {P : Type} (s : PdfMergeState P) (t : Nat) :
    (s.dragIndex = none → (pdfOnDrop s t).items = s.items) ∧
    (∀ d, s.dragIndex = some d → d < s.items.length → t < s.items.length →
      (d = t → (pdfOnDrop s t).items = s.items) ∧
      (d ≠ t →
        (pdfOnDrop s t).items
            = (s.items.eraseIdx d).insertIdx t (s.items.getD d none))) := by
  constructor
  · intro hd
    simp [pdfOnDrop, hd]
  · intro d hd hdlen htlen
    constructor
    · intro hdt
      simp [pdfOnDrop, hd, hdt]
    · intro hdt
      have hlen : (s.items.eraseIdx d).length = s.items.length - 1 := by
        rw [List.length_eraseIdx]
        simp [hdlen]
      have hmin : min t (s.items.eraseIdx d).length = t := by
        rw [hlen]
        omega
      simp [pdfOnDrop, hd, hdt, jsMoveSlots, hmin]

/-- Concrete state for the C6 witness: the spec's three-item queue
`[X, Y, Z]` with a drag recorded from index 0. -/
def w6State : PdfMergeState Nat :=
  { items :=
      [some (mkPdfItem { name := "X.pdf", type := "application/pdf", size := 1,
                         parsed := some [1] }),
       some (mkPdfItem { name := "Y.pdf", type := "application/pdf", size := 1,
                         parsed := some [2] }),
       some (mkPdfItem { name := "Z.pdf", type := "application/pdf", size := 1,
                         parsed := some [3] })],
    mergedPdf := none, errorMsg := ErrMsg.noMsg, dragIndex := some 0,
    progress := (0, 0), isMerging := false }

/-- Witness for C6: dragging index 0 to index 2 in `[X, Y, Z]` yields
`[Y, Z, X]`. -/
theorem drop_relocates_item_witness :
    (pdfOnDrop w6State 2).items
        = [w6State.items.getD 1 none, w6State.items.getD 2 none,
           w6State.items.getD 0 none] := by
  have h := ((drop_relocates_item w6State 2).2 0 rfl (by decide) (by decide)).2
      (by decide)
  exact h.trans (by decide)

/-- A 1×1-pixel PNG: the concrete input on which pure scaling and the code's
clamped page size disagree. -/
def c8Img : ImgFile :=
  { name := "tiny.png", type := "image/png", decoded := some (1, 1) }

/-- C8 counterexample: for a 1×1-pixel image the page is 1pt × 1pt, not the
0.75pt × 0.75pt obtained by applying only the fixed scale factor, so
"appends a page of exactly that converted size" fails as stated. -/
theorem convertPage_not_pure_scaling :
    (convertPage c8Img 1 1).w ≠ (specC8PageSize 1 1).1 ∧
      (convertPage c8Img 1 1).w = 1 ∧ (specC8PageSize 1 1).1 = 3 / 4 := by
  refine ⟨?_, ?_, ?_⟩ <;> with_unfolding_all decide

/-- C8 (amended): each pixel dimension is converted with the fixed 0.75
scale factor and then clamped below at 1pt; landscape is chosen exactly when
the clamped width is at least the clamped height; the appended page has
exactly the clamped size (which equals the purely converted size whenever
that is at least 1pt); and the image is placed at the page origin with
exactly the page's width and height. -/
theorem convertPage_amended (f : ImgFile) (w h : Nat) :
    (convertPage f w h).w = max 1 (pxToPt w) ∧
    (convertPage f w h).h = max 1 (pxToPt h) ∧
    ((convertPage f w h).orientation = "l" ↔
      (convertPage f w h).h ≤ (convertPage f w h).w) ∧
    (1 ≤ pxToPt w → (convertPage f w h).w = pxToPt w) ∧
    (1 ≤ pxToPt h → (convertPage f w h).h = pxToPt h) ∧
    (convertPage f w h).imgX = 0 ∧ (convertPage f w h).imgY = 0 ∧
    (convertPage f w h).imgW = (convertPage f w h).w ∧
    (convertPage f w h).imgH = (convertPage f w h).h := by
  refine ⟨rfl, rfl, ?_, ?_, ?_, rfl, rfl, rfl, rfl⟩
  · by_cases hge : max 1 (pxToPt h) ≤ max 1 (pxToPt w)
    · simp [convertPage, hge]
    · simp only [convertPage, ge_iff_le, if_neg hge]
      constructor
      · intro hpl
        exact absurd hpl (by decide)
      · intro hle
        exact absurd hle hge
  · intro hw
    simp [convertPage, max_eq_right hw]
  · intro hh
    simp [convertPage, max_eq_right hh]

/-- A 4×2-pixel JPEG for the C8 witness. -/
def w8Img : ImgFile :=
  { name := "wide.jpg", type := "image/jpeg", decoded := some (4, 2) }

/-- Witness for C8 (amended): a 4×2-pixel image gives a 3pt × 1.5pt
landscape page (no clamping, since both converted dimensions exceed 1pt). -/
theorem convertPage_amended_witness :
    (convertPage w8Img 4 2).w = pxToPt 4 ∧ (convertPage w8Img 4 2).orientation = "l" := by
  have hmain := convertPage_amended w8Img 4 2
  exact ⟨hmain.2.2.2.1 (by with_unfolding_all decide),
    hmain.2.2.1.mpr (by with_unfolding_all decide)⟩

/-- C10: for every decoded pixel dimension pair, including degenerate ones,
both page dimensions are clamped to at least 1pt, and the clamped dimensions
are the ones used as the page size, as the orientation comparison inputs,
and as the image placement size, so no zero-size page is ever produced. -/
theorem convertPage_nondegenerate (f : ImgFile) (w h : Nat) :
    1 ≤ (convertPage f w h).w ∧ 1 ≤ (convertPage f w h).h ∧
    (convertPage f w h).w = max 1 (pxToPt w) ∧
    (convertPage f w h).h = max 1 (pxToPt h) ∧
    ((convertPage f w h).orientation
        = if max 1 (pxToPt w) ≥ max 1 (pxToPt h) then "l" else "p") ∧
    (convertPage f w h).imgW = (convertPage f w h).w ∧
    (convertPage f w h).imgH = (convertPage f w h).h :=
  ⟨le_max_left 1 (pxToPt w), le_max_left 1 (pxToPt h), rfl, rfl, rfl, rfl, rfl⟩

/-- C9: on a batch holding both valid and invalid files (with room for the
valid ones), the PDF tool admits the valid subset and reports the
invalid-type condition, while the image tool rejects the entire batch
exactly when zero files pass type validation, admitting the valid subset
whenever at least one passes. -/
theorem validation_asymmetry {P : Type} (sp : PdfMergeState P) (si : JpgState)
    (pfiles : List (PdfFile P)) (ifiles : List ImgFile) :
    ((∃ f ∈ pfiles, isPdfFile f) → (∃ f ∈ pfiles, ¬ isPdfFile f) →
      sp.items.length + (pfiles.filter isPdfFile).length ≤ MAX_FILES →
      (pdfAddFiles sp pfiles).items
          = sp.items ++ (pfiles.filter isPdfFile).map (fun f => some (mkPdfItem f)) ∧
        (pdfAddFiles sp pfiles).errorMsg = ErrMsg.pdfInvalidFileType) ∧
    (ifiles ≠ [] → ifiles.filter isImgFile = [] →
      (jpgAddFiles si ifiles).items = si.items ∧
        (jpgAddFiles si ifiles).errorMsg = ErrMsg.jpgInvalidFileType) ∧
    (ifiles.filter isImgFile ≠ [] →
      (jpgAddFiles si ifiles).items
          = si.items ++ (ifiles.filter isImgFile).map (fun f => some (mkImgItem f))) := by
  refine ⟨?_, ?_, ?_⟩
  · intro hval hinval hcap
    have hlt : (pfiles.filter isPdfFile).length < pfiles.length :=
      List.length_filter_lt_length_iff_exists.mpr hinval
    have hvlen : 0 < (pfiles.filter isPdfFile).length := by
      obtain ⟨f, hf, hpf⟩ := hval
      exact List.length_pos.mpr
        (fun hemp => (List.filter_eq_nil_iff.mp hemp f hf) hpf)
    have hlen : ¬ pfiles.length = 0 := by omega
    have hneq : (pfiles.filter isPdfFile).length ≠ pfiles.length := by omega
    have hslots : ¬ MAX_FILES - sp.items.length ≤ 0 := by
      simp only [MAX_FILES] at hcap ⊢
      omega
    have hover : ¬ MAX_FILES - sp.items.length < (pfiles.filter isPdfFile).length := by
      simp only [MAX_FILES] at hcap ⊢
      omega
    have htake : (pfiles.filter isPdfFile).take (MAX_FILES - sp.items.length)
        = pfiles.filter isPdfFile := List.take_of_length_le (by omega)
    constructor <;> simp [pdfAddFiles, hlen, hneq, hslots, hover, htake]
  · intro hne hrej
    have hlen : 0 < ifiles.length := List.length_pos.mpr hne
    constructor <;> simp [jpgAddFiles, hlen, hrej]
  · intro hadm
    have hlen : (ifiles.filter isImgFile).length ≠ 0 :=
      fun h => hadm (List.length_eq_zero.mp h)
    simp [jpgAddFiles, hlen]

/-- Mixed batch for the C9 witness: one valid PDF and one text file, and,
for the image tool, one batch with no valid file and one with a valid PNG
alongside an invalid file. -/
def w9PdfBatch : List (PdfFile Nat) :=
  [{ name := "doc.pdf", type := "application/pdf", size := 1, parsed := some [1] },
   { name := "notes.txt", type := "text/plain", size := 1, parsed := none }]

/-- All-invalid image batch for the C9 witness. -/
def w9BadImgBatch : List ImgFile :=
  [{ name := "clip.gif", type := "image/gif", decoded := none }]

/-- Mixed image batch for the C9 witness. -/
def w9MixedImgBatch : List ImgFile :=
  [{ name := "clip.gif", type := "image/gif", decoded := none },
   { name := "pic.png", type := "image/png", decoded := some (2, 3) }]

/-- Empty-queue merge state for the C9 witness. -/
def w9PdfState : PdfMergeState Nat :=
  { items := [], mergedPdf := none, errorMsg := ErrMsg.noMsg, dragIndex := none,
    progress := (0, 0), isMerging := false }

/-- Empty-queue image state for the C9 witness. -/
def w9ImgState : JpgState :=
  { items := [], pdfUrl := none, errorMsg := ErrMsg.noMsg, dragIndex := none,
    isConverting := false }

/-- Witness for C9: the PDF tool admits the single valid file of a mixed
batch and reports the invalid-type condition; the image tool rejects an
all-invalid batch outright yet admits the valid file of a mixed batch. -/
theorem validation_asymmetry_witness :
    ((pdfAddFiles w9PdfState w9PdfBatch).items.length = 1 ∧
      (pdfAddFiles w9PdfState w9PdfBatch).errorMsg = ErrMsg.pdfInvalidFileType) ∧
    ((jpgAddFiles w9ImgState w9BadImgBatch).items = [] ∧
      (jpgAddFiles w9ImgState w9BadImgBatch).errorMsg = ErrMsg.jpgInvalidFileType) ∧
    (jpgAddFiles w9ImgState w9MixedImgBatch).items.length = 1 := by
  have h := validation_asymmetry w9PdfState w9ImgState w9PdfBatch w9BadImgBatch
  have h1 := h.1 (by with_unfolding_all decide) (by with_unfolding_all decide)
      (by with_unfolding_all decide)
  have h2 := h.2.1 (by decide) (by decide)
  have h3 := (validation_asymmetry w9PdfState w9ImgState w9PdfBatch w9MixedImgBatch).2.2
      (by decide)
  refine ⟨⟨?_, h1.2⟩, ⟨h2.1.trans (by decide), h2.2⟩, ?_⟩
  · rw [h1.1]
    with_unfolding_all decide
  · rw [h3]
    decide

end Portfolio
